import Mathlib

/-!
Verification of the serverless request-forwarding handler in src/solve.js.

The handler is shallowly embedded as a pure Lean function: the process-wide
API key (read from the environment in the source) and the upstream HTTP
service become explicit parameters, fallible steps (body parsing, the
network call together with JSON decoding of its response) become Except
values, and the single outbound HTTP request the handler may issue is
returned alongside the response so that side-effect claims can be stated.
-/

namespace KSolver

/-- JavaScript truthiness of an optional string value: undefined/null
(modelled as none) and the empty string are falsy; every other string is
truthy.  Used for the `!apiKey` check on line 18 and the
`base64Image && mimeType` gate on line 32 of src/solve.js. -/
def strTruthy : Option String → Bool
  | none => false
  | some s => s != ""

/-- The static system instruction string `systemPrompt` from src/solve.js
line 8 (JavaScript escape sequences resolved). -/
def systemPrompt : String :=
  "You are \x27The K Solver\x27, an advanced mathematical computation engine. Your only function is to solve the given mathematical problem. You **must** provide the complete solution steps and the final answer **exclusively** using LaTeX mathematical notation. To enhance clarity, you **must** include brief, descriptive step labels (like LCM, Move, Cancel, Substitute, Simplify) within the LaTeX using the \\text\x7b\x7d command. For example, use constructs like: \x27$$ \\frac\x7b1\x7d\x7b2\x7d + \\frac\x7b1\x7d\x7b3\x7d = \\frac\x7b3+2\x7d\x7b6\x7d \\quad \\text\x7b(LCM)\x7d $$\x27 or use the \x27align*\x27 environment for multi-step solutions with labels. Do not include any introductory text, closing remarks, explanations, descriptions, or any conversational language outside of the \\text\x7b\x7d command within the math block. Use \x27$$\x27 for display equations and \x27$\x27 for inline expressions. If the problem is unsolvable or invalid, output the message \x27$$ \\text\x7bInvalid or Unsolvable Problem\x7d $$\x27."

/-- The fixed upstream URL up to the key query parameter (src/solve.js
line 27): the template literal `apiUrl` is this constant followed by the
API key. -/
def apiUrlBase : String :=
  "https://generativelanguage.googleapis.com/v1beta/models/gemini-2.5-flash-preview-09-2025:generateContent?key="

/-- One element of the `parts` array of the outbound payload: either a
text part (whose value is `userQuery`, possibly undefined, or the system
prompt) or an inline-data part carrying a mime type and base64 data
(src/solve.js lines 30 and 33-38). -/
inductive Part where
  | text (t : Option String)
  | inlineData (mimeType : String) (data : String)
deriving DecidableEq, Repr

/-- A `{ parts: [...] }` object of the outbound payload. -/
structure ContentItem where
  parts : List Part
deriving DecidableEq, Repr

/-- The outbound payload built on src/solve.js lines 41-46. -/
structure Payload where
  contents : List ContentItem
  systemInstruction : ContentItem
deriving DecidableEq, Repr

/-- The observable data of the single `fetch` call on src/solve.js
lines 48-52: URL, HTTP method, content-type header and JSON body. -/
structure OutboundCall where
  url : String
  httpMethod : String
  contentTypeHeader : String
  payload : Payload
deriving DecidableEq, Repr

/-- The parsed JSON request body destructured on src/solve.js line 25;
each field is absent (undefined) or a string. -/
structure RequestBody where
  userQuery : Option String
  base64Image : Option String
  mimeType : Option String
deriving DecidableEq, Repr

/-- An incoming request: its HTTP method, and the outcome of
`await req.json()` (src/solve.js line 24), which either yields a parsed
body or throws. -/
structure Request where
  method : String
  body : Except Unit RequestBody

/-- One element of `candidate.content.parts` in the upstream response;
`text` may be absent. -/
structure GPart where
  text : Option String
deriving DecidableEq, Repr

/-- The `content` object of an upstream candidate; `parts` may be absent
(the source guards it with `content?.parts?`). -/
structure GContent where
  parts : Option (List GPart)
deriving DecidableEq, Repr

/-- One upstream candidate; `content` may be absent. -/
structure GCandidate where
  content : Option GContent
deriving DecidableEq, Repr

/-- The `error` object of the upstream response; `message` may be absent. -/
structure GError where
  message : Option String
deriving DecidableEq, Repr

/-- The decoded upstream response JSON `geminiResult`; both `candidates`
and `error` may be absent. -/
structure GeminiResult where
  candidates : Option (List GCandidate)
  error : Option GError
deriving DecidableEq, Repr

/-- `geminiResult.candidates?.[0]` (src/solve.js line 56): undefined when
`candidates` is absent or empty. -/
def firstCandidate (r : GeminiResult) : Option GCandidate :=
  r.candidates.bind List.head?

/-- `candidate.content?.parts?.[0]?.text` (src/solve.js line 58). -/
def candidateText (c : GCandidate) : Option String :=
  c.content.bind fun ct => ct.parts.bind fun ps => ps.head?.bind fun p => p.text

/-- The combined truthiness test of src/solve.js line 58
(`candidate && candidate.content?.parts?.[0]?.text`): yields the text of
the first candidate when the candidate exists and its text is a non-empty
string, and none otherwise. -/
def truthyCandidateText (r : GeminiResult) : Option String :=
  match firstCandidate r with
  | some c =>
    match candidateText c with
    | some t => if t != "" then some t else none
    | none => none
  | none => none

/-- `geminiResult.error?.message || "Model returned no content."`
(src/solve.js line 65): the fallback is used when `error` or `message` is
absent, or when `message` is the empty string (falsy). -/
def upstreamErrorMessage (r : GeminiResult) : String :=
  match r.error.bind GError.message with
  | some m => if m != "" then m else "Model returned no content."
  | none => "Model returned no content."

/-- JavaScript `s.substring(0, n)`: the first n characters of s (all of s
when s is shorter). -/
def jsSubstring (s : String) (n : Nat) : String :=
  String.mk (s.data.take n)

/-- The markup-wrapped error string interpolated on src/solve.js line 67:
`$$ \text` `{API Error: }` ` \text` `{<first 50 chars of msg>...}` ` $$`. -/
def errorSolutionText (msg : String) : String :=
  "$$ \\text\x7bAPI Error: \x7d \\text\x7b" ++ jsSubstring msg 50 ++ "...\x7d $$"

/-- A response body: `{ message: s }` or `{ solution: s }`. -/
inductive ResponseBody where
  | message (s : String)
  | solution (s : String)
deriving DecidableEq, Repr

/-- An HTTP response produced by the handler: status code and JSON body. -/
structure Response where
  status : Nat
  body : ResponseBody
deriving DecidableEq, Repr

/-- The `contentsParts` array built on src/solve.js lines 29-39: a text
part carrying `userQuery`, followed by an inline-data part exactly when
`base64Image && mimeType` is truthy. -/
def buildContentsParts (b : RequestBody) : List Part :=
  match b.base64Image, b.mimeType with
  | some img, some mt =>
    if img != "" && mt != "" then
      [Part.text b.userQuery, Part.inlineData mt img]
    else
      [Part.text b.userQuery]
  | _, _ => [Part.text b.userQuery]

/-- The `payload` object of src/solve.js lines 41-46. -/
def buildPayload (b : RequestBody) : Payload :=
  { contents := [{ parts := buildContentsParts b }],
    systemInstruction := { parts := [Part.text (some systemPrompt)] } }

/-- The single outbound call of src/solve.js lines 48-52, for a given API
key and parsed request body. -/
def mkOutboundCall (key : String) (b : RequestBody) : OutboundCall :=
  { url := apiUrlBase ++ key,
    httpMethod := "POST",
    contentTypeHeader := "application/json",
    payload := buildPayload b }

/-- The handler of src/solve.js lines 12-74 as a pure function.  Inputs:
the process-wide API key (none models an unset environment variable), the
incoming request, and the upstream service as a function from the outbound
call to either a decoded response JSON or a thrown exception (covering
both a failing `fetch` and a failing `geminiResponse.json()`).  Output:
the HTTP response together with the list of outbound calls issued. -/
def handler (apiKey : Option String) (req : Request)
    (upstream : OutboundCall → Except Unit GeminiResult) :
    Response × List OutboundCall :=
  if req.method != "POST" then
    ({ status := 405, body := .message "Method Not Allowed" }, [])
  else if !(strTruthy apiKey) then
    ({ status := 500, body := .message "Server configuration error: API Key missing." }, [])
  else
    match req.body with
    | .error _ =>
      ({ status := 500, body := .message "Internal server error during computation." }, [])
    | .ok b =>
      match upstream (mkOutboundCall (apiKey.getD "") b) with
      | .error _ =>
        ({ status := 500, body := .message "Internal server error during computation." },
         [mkOutboundCall (apiKey.getD "") b])
      | .ok r =>
        match truthyCandidateText r with
        | some t =>
          ({ status := 200, body := .solution t }, [mkOutboundCall (apiKey.getD "") b])
        | none =>
          ({ status := 500,
             body := .solution (errorSolutionText (upstreamErrorMessage r)) },
           [mkOutboundCall (apiKey.getD "") b])

/-- C4: for every invocation whose method is not POST, the handler responds
405 with body message "Method Not Allowed", and issues no outbound call. -/
theorem c4_method_not_allowed (apiKey : Option String) (req : Request)
    (upstream : OutboundCall → Except Unit GeminiResult)
    (hm : req.method ≠ "POST") :
    handler apiKey req upstream
      = ({ status := 405, body := .message "Method Not Allowed" }, []) := by
  simp [handler, hm]

theorem c4_witness :
    handler none { method := "GET", body := Except.error () } (fun _ => Except.error ())
      = ({ status := 405, body := .message "Method Not Allowed" }, []) :=
  c4_method_not_allowed none { method := "GET", body := Except.error () }
    (fun _ => Except.error ()) (by decide)

/-- C5: for every POST invocation with the secret absent (falsy), the handler
responds 500 with the configuration-error message and issues no outbound
call, so the configuration check precedes any upstream call. -/
theorem c5_missing_key (apiKey : Option String) (req : Request)
    (upstream : OutboundCall → Except Unit GeminiResult)
    (hm : req.method = "POST") (hk : strTruthy apiKey = false) :
    handler apiKey req upstream
      = ({ status := 500, body := .message "Server configuration error: API Key missing." }, []) := by
  simp [handler, hm, hk]

theorem c5_witness :
    handler none { method := "POST", body := Except.error () } (fun _ => Except.error ())
      = ({ status := 500, body := .message "Server configuration error: API Key missing." }, []) :=
  c5_missing_key none { method := "POST", body := Except.error () }
    (fun _ => Except.error ()) rfl rfl

/-- C7: for every request body with only userQuery set (base64Image and
mimeType both absent), the outbound content parts are exactly one text part
carrying userQuery and no inline-data part. -/
theorem c7_text_part_only (b : RequestBody)
    (hi : b.base64Image = none) (hmt : b.mimeType = none) :
    buildContentsParts b = [Part.text b.userQuery] := by
  simp [buildContentsParts, hi, hmt]

theorem c7_witness :
    buildContentsParts { userQuery := some "q", base64Image := none, mimeType := none }
      = [Part.text (some "q")] :=
  c7_text_part_only { userQuery := some "q", base64Image := none, mimeType := none } rfl rfl

/-- C10: for every request body where base64Image or mimeType is falsy
(absent or the empty string), the outbound content parts are exactly the
single text part: no partial inline-data part is ever built, because the
inline-data part is gated on the truthiness of both fields together. -/
theorem c10_no_partial_inline_part (b : RequestBody)
    (h : strTruthy b.base64Image = false ∨ strTruthy b.mimeType = false) :
    buildContentsParts b = [Part.text b.userQuery] := by
  rcases hib : b.base64Image with _ | img
  · simp [buildContentsParts, hib]
  · rcases hmt : b.mimeType with _ | mt
    · simp [buildContentsParts, hib, hmt]
    · simp [strTruthy, hib, hmt] at h
      rcases h with h | h <;> simp [buildContentsParts, hib, hmt, h]

theorem c10_witness :
    buildContentsParts { userQuery := some "q", base64Image := some "", mimeType := some "image/png" }
      = [Part.text (some "q")] :=
  c10_no_partial_inline_part
    { userQuery := some "q", base64Image := some "", mimeType := some "image/png" }
    (Or.inl rfl)

/-- C6: for every request body with userQuery, base64Image and mimeType all
set (truthy), the outbound payload holds exactly two content parts, the
text part first and the inline-data part second, with mimeType and data
copied verbatim, and a systemInstruction whose single part is the fixed
system prompt. -/
theorem c6_payload_with_image (b : RequestBody) (q img mt : String)
    (hq : b.userQuery = some q)
    (hi : b.base64Image = some img) (hine : img ≠ "")
    (hmt : b.mimeType = some mt) (hmne : mt ≠ "") :
    buildPayload b
      = { contents := [{ parts := [Part.text (some q), Part.inlineData mt img] }],
          systemInstruction := { parts := [Part.text (some systemPrompt)] } } := by
  simp [buildPayload, buildContentsParts, hq, hi, hmt, hine, hmne]

theorem c6_witness :
    buildPayload { userQuery := some "q", base64Image := some "aGk=", mimeType := some "image/png" }
      = { contents := [{ parts := [Part.text (some "q"),
                                   Part.inlineData "image/png" "aGk="] }],
          systemInstruction := { parts := [Part.text (some systemPrompt)] } } :=
  c6_payload_with_image
    { userQuery := some "q", base64Image := some "aGk=", mimeType := some "image/png" }
    "q" "aGk=" "image/png" rfl rfl (by decide) rfl (by decide)

/-- C1: for every POST invocation with the secret set whose upstream
response has a first candidate with non-empty text, the handler responds
200 with solution equal to that text, unmodified. -/
theorem c1_success_passthrough (key : String) (hkey : key ≠ "")
    (req : Request) (hm : req.method = "POST")
    (b : RequestBody) (hb : req.body = Except.ok b)
    (upstream : OutboundCall → Except Unit GeminiResult) (r : GeminiResult)
    (hup : upstream (mkOutboundCall key b) = Except.ok r)
    (c : GCandidate) (hc : firstCandidate r = some c)
    (t : String) (ht : candidateText c = some t) (hne : t ≠ "") :
    handler (some key) req upstream
      = ({ status := 200, body := .solution t }, [mkOutboundCall key b]) := by
  simp [handler, hm, hb, strTruthy, hkey, hup, truthyCandidateText, hc, ht, hne]

theorem c1_witness :
    handler (some "k")
        { method := "POST",
          body := Except.ok { userQuery := some "q", base64Image := none, mimeType := none } }
        (fun _ => Except.ok
          { candidates := some [{ content := some { parts := some [{ text := some "ans" }] } }],
            error := none })
      = ({ status := 200, body := .solution "ans" },
         [mkOutboundCall "k" { userQuery := some "q", base64Image := none, mimeType := none }]) :=
  c1_success_passthrough "k" (by decide)
    { method := "POST",
      body := Except.ok { userQuery := some "q", base64Image := none, mimeType := none } }
    rfl
    { userQuery := some "q", base64Image := none, mimeType := none } rfl
    (fun _ => Except.ok
      { candidates := some [{ content := some { parts := some [{ text := some "ans" }] } }],
        error := none })
    { candidates := some [{ content := some { parts := some [{ text := some "ans" }] } }],
      error := none }
    rfl
    { content := some { parts := some [{ text := some "ans" }] } } rfl
    "ans" rfl (by decide)

/-- C2: for every POST invocation with the secret set whose upstream
response has no candidate with usable (truthy) text, the handler responds
500 with a solution body wrapping the upstream error message (or the
generic fallback) and the embedded message text is its first at most 50
characters. -/
theorem c2_upstream_error_solution (key : String) (hkey : key ≠ "")
    (req : Request) (hm : req.method = "POST")
    (b : RequestBody) (hb : req.body = Except.ok b)
    (upstream : OutboundCall → Except Unit GeminiResult) (r : GeminiResult)
    (hup : upstream (mkOutboundCall key b) = Except.ok r)
    (hno : truthyCandidateText r = none) :
    (handler (some key) req upstream).1
        = { status := 500,
            body := .solution (errorSolutionText (upstreamErrorMessage r)) }
      ∧ (jsSubstring (upstreamErrorMessage r) 50).length ≤ 50 := by
  constructor
  · simp [handler, hm, hb, strTruthy, hkey, hup, hno]
  · have h : (jsSubstring (upstreamErrorMessage r) 50).length
        = ((upstreamErrorMessage r).data.take 50).length := rfl
    rw [h, List.length_take]
    omega

theorem c2_witness :
    (handler (some "k")
        { method := "POST",
          body := Except.ok { userQuery := some "q", base64Image := none, mimeType := none } }
        (fun _ => Except.ok { candidates := none, error := some { message := some "boom" } })).1
        = { status := 500,
            body := .solution (errorSolutionText (upstreamErrorMessage
              { candidates := none, error := some { message := some "boom" } })) }
      ∧ (jsSubstring (upstreamErrorMessage
          { candidates := none, error := some { message := some "boom" } }) 50).length ≤ 50 :=
  c2_upstream_error_solution "k" (by decide)
    { method := "POST",
      body := Except.ok { userQuery := some "q", base64Image := none, mimeType := none } }
    rfl
    { userQuery := some "q", base64Image := none, mimeType := none } rfl
    (fun _ => Except.ok { candidates := none, error := some { message := some "boom" } })
    { candidates := none, error := some { message := some "boom" } }
    rfl rfl

/-- C3: for every POST invocation with the secret set, an exception during
body parsing or during the outbound call (including JSON decoding of its
response) is caught and mapped to 500 with the generic message body, never
the solution-shaped body. -/
theorem c3_exception_generic_500 (apiKey : Option String)
    (hk : strTruthy apiKey = true)
    (req : Request) (hm : req.method = "POST")
    (upstream : OutboundCall → Except Unit GeminiResult)
    (hexc : req.body = Except.error ()
      ∨ ∃ b, req.body = Except.ok b
          ∧ upstream (mkOutboundCall (apiKey.getD "") b) = Except.error ()) :
    (handler apiKey req upstream).1
      = { status := 500, body := .message "Internal server error during computation." } := by
  rcases hexc with hb | ⟨b, hb, hup⟩
  · simp [handler, hm, hb, hk]
  · simp [handler, hm, hb, hk, hup]

theorem c3_witness :
    (handler (some "k") { method := "POST", body := Except.error () }
        (fun _ => Except.error ())).1
      = { status := 500, body := .message "Internal server error during computation." } :=
  c3_exception_generic_500 (some "k") rfl
    { method := "POST", body := Except.error () } rfl
    (fun _ => Except.error ()) (Or.inl rfl)

/-- C8: every invocation issues at most one outbound call, and a POST
invocation with the secret set and a parsable body issues exactly one call,
whose URL is the fixed endpoint with the key as query parameter, whose
method is POST and whose content-type header is application/json. -/
theorem c8_single_outbound_call (apiKey : Option String) (req : Request)
    (upstream : OutboundCall → Except Unit GeminiResult) :
    (handler apiKey req upstream).2.length ≤ 1
    ∧ ∀ key b, apiKey = some key → key ≠ "" → req.method = "POST" →
        req.body = Except.ok b →
        (handler apiKey req upstream).2 = [mkOutboundCall key b]
        ∧ (mkOutboundCall key b).url = apiUrlBase ++ key
        ∧ (mkOutboundCall key b).httpMethod = "POST"
        ∧ (mkOutboundCall key b).contentTypeHeader = "application/json" := by
  constructor
  · by_cases hm : req.method = "POST"
    · by_cases hk : strTruthy apiKey = true
      · rcases hb : req.body with u | b
        · simp [handler, hm, hk, hb]
        · rcases hup : upstream (mkOutboundCall (apiKey.getD "") b) with u | r
          · simp [handler, hm, hk, hb, hup]
          · rcases ht : truthyCandidateText r with _ | t <;>
              simp [handler, hm, hk, hb, hup, ht]
      · rw [Bool.not_eq_true] at hk
        simp [handler, hm, hk]
    · simp [handler, hm]
  · intro key b hkey hne hm hb
    subst hkey
    refine ⟨?_, rfl, rfl, rfl⟩
    rcases hup : upstream (mkOutboundCall key b) with u | r
    · simp [handler, hm, hb, strTruthy, hne, hup]
    · rcases ht : truthyCandidateText r with _ | t <;>
        simp [handler, hm, hb, strTruthy, hne, hup, ht]

theorem c8_witness :
    (handler (some "k")
        { method := "POST",
          body := Except.ok { userQuery := some "q", base64Image := none, mimeType := none } }
        (fun _ => Except.error ())).2
      = [mkOutboundCall "k" { userQuery := some "q", base64Image := none, mimeType := none }] := by
  have h := c8_single_outbound_call (some "k")
    { method := "POST",
      body := Except.ok { userQuery := some "q", base64Image := none, mimeType := none } }
    (fun _ => Except.error ())
  exact (h.2 "k" { userQuery := some "q", base64Image := none, mimeType := none }
    rfl (by decide) rfl rfl).1

/-- C9: every response status is 200, 405 or 500, and 405 occurs exactly
for non-POST methods: all error outcomes other than the wrong-method case
carry status 500 and are distinguished only by their body. -/
theorem c9_error_status_uniform (apiKey : Option String) (req : Request)
    (upstream : OutboundCall → Except Unit GeminiResult) :
    ((handler apiKey req upstream).1.status = 200
      ∨ (handler apiKey req upstream).1.status = 405
      ∨ (handler apiKey req upstream).1.status = 500)
    ∧ ((handler apiKey req upstream).1.status = 405 ↔ req.method ≠ "POST") := by
  by_cases hm : req.method = "POST"
  · by_cases hk : strTruthy apiKey = true
    · rcases hb : req.body with u | b
      · simp [handler, hm, hk, hb]
      · rcases hup : upstream (mkOutboundCall (apiKey.getD "") b) with u | r
        · simp [handler, hm, hk, hb, hup]
        · rcases ht : truthyCandidateText r with _ | t <;>
            simp [handler, hm, hk, hb, hup, ht]
    · rw [Bool.not_eq_true] at hk
      simp [handler, hm, hk]
  · simp [handler, hm]

theorem c9_witness :
    (handler none { method := "GET", body := Except.error () }
        (fun _ => Except.error ())).1.status = 405 := by
  have h := c9_error_status_uniform none { method := "GET", body := Except.error () }
    (fun _ => Except.error ())
  exact h.2.mpr (by decide)

end KSolver
